import Mathlib

/-!
Verification development for the Movie-Auction-Bot repository
(single source file `bot_main.py`): a chat front-end over a read-only
movie catalog stored in SQLite.

The embedding models:
  * the catalog as a `List MovieRecord` (one table `movies` with columns
    `(id, img, title, year, genre, rating, overview)`);
  * the SQLite connection as `Except String (List MovieRecord)`:
    `Except.ok db` is a reachable store holding `db`, `Except.error e`
    is an unreachable or malformed store whose access raises
    `sqlite3.Error` with message `e`;
  * each SQL query of the program as a pure function on the row list,
    reproducing the SQLite semantics the program relies on
    (`LIKE` wildcards and ASCII case folding, `ORDER BY ... DESC`,
    negative `LIMIT` meaning "no limit", `LOWER` folding ASCII only);
  * the Telegram transport as a list of outbound `BotAction`s, and each
    handler as a function from its inputs to the emitted actions plus
    the log lines written via `logger`.

All definitions are structural (fuel is used where the natural recursion
is not structural) so that concrete instances evaluate by `decide`.
-/

/-- ASCII-only lower casing of one character; this is exactly the case
folding SQLite applies in `LOWER(...)` and in `LIKE` matching (both fold
only `A`-`Z`), and it also matches CPython `str.lower` on ASCII input. -/
def asciiLower (c : Char) : Char :=
  if 'A' ≤ c ∧ c ≤ 'Z' then Char.ofNat (c.toNat + 32) else c

/-- ASCII-only upper casing of one character (models `str.upper()` on the
ASCII genre names the program passes to it). -/
def asciiUpper (c : Char) : Char :=
  if 'a' ≤ c ∧ c ≤ 'z' then Char.ofNat (c.toNat - 32) else c

/-- `LOWER(s)` of SQLite: character-wise ASCII lower casing. -/
def lowerStr (s : String) : String := String.mk (s.toList.map asciiLower)

/-- `s.upper()` restricted to ASCII folding. -/
def upperStr (s : String) : String := String.mk (s.toList.map asciiUpper)

/-- Whether the first list is an initial segment of the second. -/
def isPrefixChars : List Char → List Char → Bool
  | [], _ => true
  | _ :: _, [] => false
  | a :: as, b :: bs => a == b && isPrefixChars as bs

/-- Whether `pat` occurs contiguously somewhere in the second list. -/
def hasSubChars (pat : List Char) : List Char → Bool
  | [] => isPrefixChars pat []
  | c :: cs => isPrefixChars pat (c :: cs) || hasSubChars pat cs

/-- Whether `pat` is a substring of `s` (exact, case sensitive). -/
def strContains (s pat : String) : Bool := hasSubChars pat.toList s.toList

/-- Whether `pat` is a substring of `s` up to ASCII case. -/
def strContainsCI (s pat : String) : Bool :=
  hasSubChars (pat.toList.map asciiLower) (s.toList.map asciiLower)

/-- One pass of Python `str.replace`: replaces every non-overlapping
occurrence of `pat`, scanning left to right.  The first argument is
fuel; a call with fuel `≥` the length of the scanned list is total
(every step consumes at least one character).  An empty `pat` leaves the
string unchanged (the program only replaces the fixed non-empty tags
`top_genre_` and `top_year_`). -/
def replaceFuel (pat rep : List Char) : Nat → List Char → List Char
  | 0, l => l
  | _ + 1, [] => []
  | fuel + 1, c :: cs =>
    if pat.length > 0 && isPrefixChars pat (c :: cs) then
      rep ++ replaceFuel pat rep fuel (List.drop (pat.length - 1) cs)
    else
      c :: replaceFuel pat rep fuel cs

/-- Python `s.replace(pat, rep)`. -/
def pyReplace (s pat rep : String) : String :=
  String.mk (replaceFuel pat.toList rep.toList s.toList.length s.toList)

/-- Accumulating decimal reader; fails on the first non-digit. -/
def digitsValAux (acc : Nat) : List Char → Option Nat
  | [] => some acc
  | c :: cs =>
    if c.isDigit then digitsValAux (acc * 10 + (c.toNat - 48)) cs else none

/-- Python `int(s)` on the strings this program feeds it: an optional
leading minus sign followed by at least one decimal digit; anything else
raises `ValueError`, modelled as `none`.  (CPython additionally strips
whitespace and accepts `+` and digit-group underscores; no caller here
produces such input.) -/
def pyIntOfStr (s : String) : Option Int :=
  match s.toList with
  | [] => none
  | ['-'] => none
  | '-' :: c :: cs => (digitsValAux 0 (c :: cs)).map (fun n => -(n : Int))
  | cs => (digitsValAux 0 cs).map (fun n => (n : Int))

/-- Lexicographic comparison of character lists by code point; for valid
UTF-8 this coincides with the byte order SQLite uses for `TEXT` columns
under the default `BINARY` collation. -/
def charListLe : List Char → List Char → Bool
  | [], _ => true
  | _ :: _, [] => false
  | a :: as, b :: bs =>
    if a < b then true else if b < a then false else charListLe as bs

/-- String comparison under SQLite `BINARY` collation. -/
def strLeB (a b : String) : Bool := charListLe a.toList b.toList

/-- One decimal digit as a character. -/
def digitChar10 (n : Nat) : Char :=
  match n with
  | 0 => '0' | 1 => '1' | 2 => '2' | 3 => '3' | 4 => '4'
  | 5 => '5' | 6 => '6' | 7 => '7' | 8 => '8' | _ => '9'

/-- Decimal digits of `n`, most significant first (fuel `≥ n` steps). -/
def natDigitsAux : Nat → Nat → List Char
  | 0, _ => []
  | fuel + 1, n =>
    if n < 10 then [digitChar10 n]
    else natDigitsAux fuel (n / 10) ++ [digitChar10 (n % 10)]

/-- Decimal rendering of a natural number. -/
def natText (n : Nat) : String := String.mk (natDigitsAux (n + 1) n)

/-- Decimal rendering of an integer (Python `str(int)`). -/
def intText : Int → String
  | Int.ofNat n => natText n
  | Int.negSucc n => "-" ++ natText (n + 1)

/-- Display form of a stored rating value as interpolated by the
f-strings of the program.  A null rating prints as Python prints `None`.
The exact digit sequence of the numeric form is immaterial to every
verified claim, so a rational is displayed as `num` or `num/den` rather
than reproducing CPython float formatting. -/
def ratText : Option ℚ → String
  | none => "None"
  | some q => if q.den = 1 then intText q.num else intText q.num ++ "/" ++ natText q.den

/-- `some s` prints as `s`, `none` prints as Python prints `None`. -/
def optText : Option String → String
  | none => "None"
  | some s => s

/-- Python `s or default` on an optional string: `None` and the empty
string are falsy. -/
def orElseStr : Option String → String → String
  | none, d => d
  | some s, d => if s = "" then d else s

/-- `s * n` for a repetition count `n : Nat`. -/
def strRepeat (s : String) : Nat → String
  | 0 => ""
  | n + 1 => s ++ strRepeat s n

/-- Python `s * n` for `n : Int` (non-positive counts give `""`). -/
def pyStrMul (s : String) (n : Int) : String := strRepeat s n.toNat

/-- Python `int(q)` on a numeric value: truncation toward zero. -/
def pyInt (q : ℚ) : Int := Int.tdiv q.num q.den

/-- SQLite `LIKE` matching on character lists: `%` matches any sequence,
`_` matches any single character, and ordinary characters compare after
ASCII case folding (SQLite `LIKE` is case insensitive for ASCII only).
The first argument is fuel; every recursive call shrinks the pattern or
the string, so fuel `>` the sum of both lengths makes the match total. -/
def sqlLikeFuel : Nat → List Char → List Char → Bool
  | 0, _, _ => false
  | _ + 1, [], s => s.isEmpty
  | fuel + 1, p :: ps, s =>
    if p = '%' then
      sqlLikeFuel fuel ps s ||
        (match s with
         | [] => false
         | _ :: s2 => sqlLikeFuel fuel (p :: ps) s2)
    else
      match s with
      | [] => false
      | c :: cs =>
        if p = '_' then sqlLikeFuel fuel ps cs
        else (asciiLower p == asciiLower c) && sqlLikeFuel fuel ps cs

/-- `s LIKE pat` of SQLite. -/
def sqlLike (pat s : String) : Bool :=
  sqlLikeFuel (pat.toList.length + s.toList.length + 1) pat.toList s.toList

/-- The pattern the program binds for a genre filter: `f"%{genre}%"`. -/
def likePatternFor (g : String) : String := "%" ++ g ++ "%"

/-- Python slicing `s[:n]` (first `n` code points). -/
def pyTake (s : String) (n : Nat) : String := String.mk (s.toList.take n)

/-- One row of the `movies` table, in the column order
`(id, img, title, year, genre, rating, overview)` used both by
`SELECT *` and by the explicit column list of `get_top_movies`. -/
structure MovieRecord where
  id : Int
  img : Option String
  title : String
  year : Int
  genre : Option String
  rating : Option ℚ
  overview : Option String
deriving DecidableEq

/-- The SQLite store as seen through one connection attempt:
`Except.ok db` when reachable with contents `db`, `Except.error e` when
connecting or executing raises `sqlite3.Error` with message `e`. -/
def Store : Type := Except String (List MovieRecord)

/-- `DatabaseManager.execute_query`: runs the fetch and returns the row
list, catching `sqlite3.Error` — on failure it logs
`Database error: {e}` and returns the empty list.  The second component
collects the log lines written. -/
def execute_query (fetched : Except String (List MovieRecord)) :
    List MovieRecord × List String :=
  match fetched with
  | Except.ok rows => (rows, [])
  | Except.error e => ([], ["Database error: " ++ e])

/-- Running one pure query against the store: an unreachable store makes
the fetch raise, a reachable one returns the query's rows. -/
def queryOn (store : Store) (q : List MovieRecord → List MovieRecord) :
    Except String (List MovieRecord) :=
  match store with
  | Except.ok db => Except.ok (q db)
  | Except.error e => Except.error e

/-- Row comparison `b ≤ a` on the `ORDER BY` column, so that a list
sorted by this relation is descending in that column.  Rows reaching the
sort all satisfy `rating IS NOT NULL`, so the default value of `getD`
never decides an order. -/
def fieldGe (order_by : String) (a b : MovieRecord) : Bool :=
  if order_by = "year" then decide (b.year ≤ a.year)
  else if order_by = "title" then strLeB b.title a.title
  else decide (b.rating.getD 0 ≤ a.rating.getD 0)

/-- The `order_by` validation of `get_top_movies`: anything outside
`['rating', 'year', 'title']` falls back to `'rating'`. -/
def normOrderBy (order_by : String) : String :=
  if order_by = "rating" ∨ order_by = "year" ∨ order_by = "title" then order_by
  else "rating"

/-- `WHERE rating IS NOT NULL`. -/
def ratingNotNull (db : List MovieRecord) : List MovieRecord :=
  db.filter (fun r => r.rating.isSome)

/-- Whether a row satisfies `genre LIKE '%' || g || '%'`: a NULL genre
never matches (the SQL comparison yields NULL). -/
def genreLikeB (r : MovieRecord) (g : String) : Bool :=
  match r.genre with
  | none => false
  | some t => sqlLike (likePatternFor g) t

/-- The optional `AND genre LIKE ?` clause. Python `if genre:` treats
both `None` and the empty string as falsy, skipping the clause. -/
def genreClause (genre : Option String) (db : List MovieRecord) : List MovieRecord :=
  match genre with
  | none => db
  | some g =>
    if g = "" then db
    else db.filter (fun r => genreLikeB r g)

/-- The optional `AND year = ?` clause. Python `if year:` treats both
`None` and `0` as falsy, skipping the clause. -/
def yearClause (year : Option Int) (db : List MovieRecord) : List MovieRecord :=
  match year with
  | none => db
  | some y => if y = 0 then db else db.filter (fun r => r.year == y)

/-- `LIMIT ?`: SQLite applies no bound when the limit is negative. -/
def sqlLimit (limit : Int) (rows : List MovieRecord) : List MovieRecord :=
  if limit < 0 then rows else rows.take limit.toNat

/-- `ORDER BY {column} DESC`: some permutation of the rows that is
non-ascending in the column; insertion sort is used as the witnessing
deterministic sort (SQLite fixes no tie order). -/
def orderByDesc (order_by : String) (rows : List MovieRecord) : List MovieRecord :=
  List.insertionSort (fun a b => fieldGe order_by a b = true) rows

/-- The SQL of `DatabaseManager.get_top_movies` as a pure function of
the table contents: validated order column, `rating IS NOT NULL`,
optional genre and year clauses (in that order), descending sort,
limit. -/
def topQuery (limit : Int) (order_by : String) (genre : Option String)
    (year : Option Int) (db : List MovieRecord) : List MovieRecord :=
  sqlLimit limit
    (orderByDesc (normOrderBy order_by)
      (yearClause year (genreClause genre (ratingNotNull db))))

/-- `DatabaseManager.get_top_movies(limit, order_by, genre, year)`:
runs `topQuery` through `execute_query`. -/
def get_top_movies (store : Store) (limit : Int) (order_by : String)
    (genre : Option String) (year : Option Int) :
    List MovieRecord × List String :=
  execute_query (queryOn store (topQuery limit order_by genre year))

/-- `SELECT * FROM movies WHERE LOWER(title) = LOWER(?)`. -/
def titleQuery (title : String) (db : List MovieRecord) : List MovieRecord :=
  db.filter (fun r => lowerStr r.title == lowerStr title)

/-- `DatabaseManager.search_movie_by_title`: the first matching row, or
`None` when the result set is empty. -/
def search_movie_by_title (store : Store) (title : String) :
    Option MovieRecord × List String :=
  let q := execute_query (queryOn store (titleQuery title))
  (q.1.head?, q.2)

/-- `DatabaseManager.get_random_movie`:
`SELECT * FROM movies ORDER BY RANDOM() LIMIT 1`.  The random ordering
chosen by SQLite is modelled by the `shuffle` argument; theorems
constrain it to be a permutation of the table. -/
def get_random_movie (store : Store)
    (shuffle : List MovieRecord → List MovieRecord) :
    Option MovieRecord × List String :=
  let q := execute_query (queryOn store (fun db => (shuffle db).take 1))
  (q.1.head?, q.2)

/-- The inline classic-movies SQL of `handle_year_callback`:
`WHERE year < 2000 AND rating IS NOT NULL ORDER BY rating DESC LIMIT 10`. -/
def classicQuery (db : List MovieRecord) : List MovieRecord :=
  (orderByDesc "rating"
    (db.filter (fun r => decide (r.year < 2000) && r.rating.isSome))).take 10

/-- The classic-movies fetch as written in `handle_year_callback`: it
connects and executes directly, without `execute_query`, so a store
failure raises out of the query code instead of yielding an empty row
list. -/
def classicFetch (store : Store) : Except String (List MovieRecord) :=
  queryOn store classicQuery

/-- Truncated description used by `handle_top_movies`:
`(overview[:100] + '...') if overview and len(overview) > 100 else (overview or "")`. -/
def shortDesc : Option String → String
  | none => ""
  | some s => if 100 < s.length then pyTake s 100 ++ "..." else s

/-- The star strip `"⭐" * int(rating)`.  A NULL rating would make the
Python `int(...)` raise `TypeError`; every row rendered with stars comes
from a query filtering on `rating IS NOT NULL` (see the C10 theorem), so
the `getD` default is never taken on a reachable path. -/
def starsFor (rating : Option ℚ) : String :=
  pyStrMul "⭐" (pyInt (rating.getD 0))

/-- An outbound transport operation.  Inline keyboards attached to sent
messages are elided: no verified claim concerns button markup. -/
inductive BotAction where
  | sendMessage (chatId : Int) (text : String)
  | replyTo (chatId : Int) (text : String)
  | editMessageText (chatId : Int) (messageId : Int) (text : String)
  | answerCallback (callId : Int) (text : Option String)
  | sendPhoto (chatId : Int) (url : String)
deriving DecidableEq

/-- One list entry of the `/top_movies` response (with genre line and
optional truncated description). -/
def renderTopEntry (index : Nat) (m : MovieRecord) : String :=
  "\n<b>" ++ natText index ++ ". " ++ m.title ++ "</b> (" ++ intText m.year
    ++ ")\n   ⭐ <b>Rating:</b> " ++ ratText m.rating ++ "/10 " ++ starsFor m.rating
    ++ "\n   🎭 <b>Genre:</b> " ++ orElseStr m.genre "Unknown" ++ "\n"
    ++ (if shortDesc m.overview = "" then ""
        else "   " ++ ("📝 " ++ shortDesc m.overview) ++ "\n")
    ++ "   ━━━━━━━━━━━━━━━━━━━\n"

/-- One list entry of a genre-filtered response (no genre line, no
description). -/
def renderGenreEntry (index : Nat) (m : MovieRecord) : String :=
  "\n<b>" ++ natText index ++ ". " ++ m.title ++ "</b> (" ++ intText m.year
    ++ ")\n   ⭐ Rating: " ++ ratText m.rating ++ "/10 " ++ starsFor m.rating
    ++ "\n   ━━━━━━━━━━━━━━━━━━━\n"

/-- One list entry of the classic-movies response (genre line, no
description). -/
def renderClassicEntry (index : Nat) (m : MovieRecord) : String :=
  "\n<b>" ++ natText index ++ ". " ++ m.title ++ "</b> (" ++ intText m.year
    ++ ")\n   ⭐ Rating: " ++ ratText m.rating ++ "/10 " ++ starsFor m.rating
    ++ "\n   🎭 Genre: " ++ orElseStr m.genre "Unknown"
    ++ "\n   ━━━━━━━━━━━━━━━━━━━\n"

/-- One list entry of a year-filtered response (genre line, no year in
the title line, no description). -/
def renderYearEntry (index : Nat) (m : MovieRecord) : String :=
  "\n<b>" ++ natText index ++ ". " ++ m.title
    ++ "</b>\n   ⭐ Rating: " ++ ratText m.rating ++ "/10 " ++ starsFor m.rating
    ++ "\n   🎭 Genre: " ++ orElseStr m.genre "Unknown"
    ++ "\n   ━━━━━━━━━━━━━━━━━━━\n"

/-- `enumerate(movies, 1)` followed by concatenating the entries. -/
def renderEntries (entry : Nat → MovieRecord → String)
    (movies : List MovieRecord) : String :=
  String.join ((movies.enumFrom 1).map (fun p => entry p.1 p.2))

/-- The full `/top_movies` response body. -/
def renderTopList (movies : List MovieRecord) : String :=
  "🏆 <b>TOP 10 MOVIES BY RATING</b> 🎬\n\n" ++ renderEntries renderTopEntry movies

/-- The full genre-callback response body. -/
def renderGenreList (genre : String) (movies : List MovieRecord) : String :=
  "🎭 <b>TOP 10 MOVIES - " ++ upperStr genre ++ "</b> 🎬\n\n"
    ++ renderEntries renderGenreEntry movies

/-- The full classic-movies response body. -/
def renderClassicList (movies : List MovieRecord) : String :=
  "🎞️ <b>TOP 10 CLASSIC MOVIES (1920-1999)</b> 🎬\n\n"
    ++ renderEntries renderClassicEntry movies

/-- The full year-callback response body. -/
def renderYearList (year : Int) (movies : List MovieRecord) : String :=
  "📅 <b>TOP 10 MOVIES - " ++ intText year ++ "</b> 🎬\n\n"
    ++ renderEntries renderYearEntry movies

/-- The single-movie text block of `send_movie_info`. -/
def movieInfoText (m : MovieRecord) : String :=
  "\n📍 <b>Title:</b> " ++ m.title
    ++ "\n📍 <b>Year:</b> " ++ intText m.year
    ++ "\n📍 <b>Genre:</b> " ++ optText m.genre
    ++ "\n📍 <b>IMDB Rating:</b> ⭐ " ++ ratText m.rating ++ "/10"
    ++ "\n\n🔻🔻🔻🔻🔻🔻🔻🔻🔻🔻🔻\n" ++ optText m.overview ++ "\n"

/-- `send_movie_info`: optionally the poster (skipped for a falsy URL;
a failed poster send is logged and swallowed, which the action list does
not distinguish), then the info text with the favorites button. -/
def send_movie_info (chatId : Int) (m : MovieRecord) : List BotAction :=
  (match m.img with
   | some u => if u = "" then [] else [BotAction.sendPhoto chatId u]
   | none => []) ++ [BotAction.sendMessage chatId (movieInfoText m)]

/-- The genre name decoded by `handle_genre_callback`:
`call.data.replace('top_genre_', '')`. -/
def genreOf (data : String) : String := pyReplace data "top_genre_" ""

/-- The year text decoded by `handle_year_callback`:
`call.data.replace('top_year_', '')`. -/
def yearTextOf (data : String) : String := pyReplace data "top_year_" ""

/-- `handle_genre_callback(call)`: decodes the genre, queries the top
ten of that genre, then either alerts that nothing was found or edits
the originating message in place and acknowledges the callback.  The
`except` arm of the Python handler is unreachable in this model: the
query layer catches store errors (returning an empty list) and the
rendering of well-typed rows is total. -/
def handle_genre_callback (store : Store) (data : String)
    (chatId messageId callId : Int) : List BotAction × List String :=
  let genre := genreOf data
  let q := get_top_movies store 10 "rating" (some genre) none
  if q.1 = [] then
    ([BotAction.answerCallback callId
        (some ("❌ No movies found in genre \x27" ++ genre ++ "\x27"))], q.2)
  else
    ([BotAction.editMessageText chatId messageId (renderGenreList genre q.1),
      BotAction.answerCallback callId none], q.2)

/-- `handle_top_movies(message)`: queries the unfiltered top ten and
either replies that nothing was found or sends the ranked list as a new
message.  As for the genre callback, the `except` arm is unreachable in
the model. -/
def handle_top_movies (store : Store) (chatId : Int) :
    List BotAction × List String :=
  let q := get_top_movies store 10 "rating" none none
  if q.1 = [] then
    ([BotAction.replyTo chatId "🎬 No movies found in database"], q.2)
  else
    ([BotAction.sendMessage chatId (renderTopList q.1)], q.2)

/-- `handle_year_callback(call)`.  The classic branch runs its SQL
directly (no `execute_query`), so a store failure raises and lands in
the handler's `except`, which alerts the user with
`f"❌ Error: {str(e)}"` and logs `f"Error in year callback: {e}"`.
The specific-year branch first runs `int(...)` on the decoded text —
a non-numeric remainder raises `ValueError`, reaching the same `except`
(its message is modelled by the fixed CPython text) — and then queries
through `execute_query`, which cannot raise. -/
def handle_year_callback (store : Store) (data : String)
    (chatId messageId callId : Int) : List BotAction × List String :=
  if data = "top_year_classic" then
    match classicFetch store with
    | Except.error e =>
      ([BotAction.answerCallback callId (some ("❌ Error: " ++ e))],
       ["Error in year callback: " ++ e])
    | Except.ok movies =>
      if movies = [] then
        ([BotAction.answerCallback callId (some "❌ No classic movies found")], [])
      else
        ([BotAction.editMessageText chatId messageId (renderClassicList movies),
          BotAction.answerCallback callId none], [])
  else
    match pyIntOfStr (yearTextOf data) with
    | none =>
      ([BotAction.answerCallback callId
          (some ("❌ Error: invalid literal for int() with base 10: \x27"
                 ++ yearTextOf data ++ "\x27"))],
       ["Error in year callback: invalid literal for int() with base 10: \x27"
        ++ yearTextOf data ++ "\x27"])
    | some year =>
      let q := get_top_movies store 10 "rating" none (some year)
      if q.1 = [] then
        ([BotAction.answerCallback callId
            (some ("❌ No movies found for year " ++ intText year))], q.2)
      else
        ([BotAction.editMessageText chatId messageId (renderYearList year q.1),
          BotAction.answerCallback callId none], q.2)

/-- `handle_random(message)`: one `Random` query, then either the
single-movie view or the fixed empty-catalog message. -/
def handle_random (store : Store)
    (shuffle : List MovieRecord → List MovieRecord) (chatId : Int) :
    List BotAction × List String :=
  let q := get_random_movie store shuffle
  match q.1 with
  | some m => (send_movie_info chatId m, q.2)
  | none => ([BotAction.sendMessage chatId "❌ No movies found in database"], q.2)

/-- `handle_text_search(message)`: the free-text fallback, an
`ExactTitle` search; a hit yields the found-it line plus the
single-movie view, a miss the fixed suggestion message. -/
def handle_text_search (store : Store) (text : String) (chatId : Int) :
    List BotAction × List String :=
  let q := search_movie_by_title store text
  match q.1 with
  | some m =>
    (BotAction.sendMessage chatId "✅ Found it! Here\x27s the movie:"
       :: send_movie_info chatId m, q.2)
  | none =>
    ([BotAction.sendMessage chatId
        ("❌ Sorry, I couldn\x27t find \x27" ++ text ++ "\x27 in the database.\n\n"
         ++ "Try:\n• Checking the spelling\n• Using /random for a random movie\n"
         ++ "• Browsing by /top_movies_genre")], q.2)

/-- The `/start` welcome text. -/
def welcomeText : String :=
  "\n🎬 <b>Welcome to the Ultimate Movie Bot!</b> 🎥\n\n"
    ++ "Explore our collection of 1,000+ amazing movies!\n\n"
    ++ "<b>Quick Actions:</b>\n• Click buttons below for quick access\n"
    ++ "• Type a movie title to search\n• Use /help to see all commands\n\n"
    ++ "Enjoy your movie journey! 🍿\n"

/-- The `/help` reference text. -/
def helpText : String :=
  "\nℹ️ <b>AVAILABLE COMMANDS</b>\n\n📋 <b>Main Commands:</b>\n"
    ++ "• /start - Start the bot\n• /help - Show this help menu\n"
    ++ "• /random - Get a random movie\n• /top_movies - Top 10 by rating\n"
    ++ "• /top_movies_genre - Top by genre\n• /top_movies_year - Top by year\n\n"
    ++ "🔍 <b>Search:</b>\nJust type any movie title to search!\n\n"
    ++ "Choose an option below or use the keyboard buttons:\n"

/-- `handle_start(message)`: sends the welcome text (the reply keyboard
is elided with the other button markup). -/
def handle_start (chatId : Int) : List BotAction × List String :=
  ([BotAction.sendMessage chatId welcomeText], [])

/-- `handle_help(message)`: sends the command reference. -/
def handle_help (chatId : Int) : List BotAction × List String :=
  ([BotAction.sendMessage chatId helpText], [])

/-- `handle_top_movies_by_genre(message)`: sends the genre menu. -/
def handle_top_movies_by_genre (chatId : Int) : List BotAction × List String :=
  ([BotAction.sendMessage chatId "🎭 <b>Select a genre to view top movies:</b>"], [])

/-- `handle_top_movies_by_year(message)`: sends the year menu. -/
def handle_top_movies_by_year (chatId : Int) : List BotAction × List String :=
  ([BotAction.sendMessage chatId "📅 <b>Select a year to view top movies:</b>"], [])

/-- Whether an action delivers a new message to the chat. -/
def isSendAction : BotAction → Bool
  | BotAction.sendMessage _ _ => true
  | BotAction.replyTo _ _ => true
  | BotAction.sendPhoto _ _ => true
  | _ => false

/-- Whether an action edits an existing message in place. -/
def isEditAction : BotAction → Bool
  | BotAction.editMessageText _ _ _ => true
  | _ => false

/-! ## General lemmas about the embedded primitives -/

theorem charListLe_total : ∀ xs ys : List Char,
    charListLe xs ys = true ∨ charListLe ys xs = true
  | [], ys => by left; cases ys <;> simp [charListLe]
  | x :: xs, [] => by right; simp [charListLe]
  | x :: xs, y :: ys => by
    rcases lt_trichotomy x y with h | h | h
    · left; simp [charListLe, h]
    · subst h
      rcases charListLe_total xs ys with ih | ih
      · left; simp [charListLe, lt_irrefl, ih]
      · right; simp [charListLe, lt_irrefl, ih]
    · right; simp [charListLe, h]

theorem charListLe_trans : ∀ xs ys zs : List Char,
    charListLe xs ys = true → charListLe ys zs = true → charListLe xs zs = true
  | [], _, zs, _, _ => by cases zs <;> simp [charListLe]
  | x :: xs, [], _, h, _ => by simp [charListLe] at h
  | _ :: _, _ :: _, [], _, h => by simp [charListLe] at h
  | x :: xs, y :: ys, z :: zs, h1, h2 => by
    rcases lt_trichotomy x y with hxy | hxy | hxy
    · rcases lt_trichotomy y z with hyz | hyz | hyz
      · simp [charListLe, lt_trans hxy hyz]
      · subst hyz; simp [charListLe, hxy]
      · simp [charListLe, lt_asymm hyz, hyz] at h2
    · subst hxy
      rcases lt_trichotomy x z with hxz | hxz | hxz
      · simp [charListLe, hxz]
      · subst hxz
        simp [charListLe, lt_irrefl] at h1 h2 ⊢
        exact charListLe_trans xs ys zs h1 h2
      · simp [charListLe, lt_asymm hxz, hxz] at h2
    · simp [charListLe, lt_asymm hxy, hxy] at h1

theorem strLeB_total (a b : String) : strLeB a b = true ∨ strLeB b a = true :=
  charListLe_total _ _

theorem strLeB_trans (a b c : String) :
    strLeB a b = true → strLeB b c = true → strLeB a c = true :=
  charListLe_trans _ _ _

theorem fieldGe_total (ob : String) (a b : MovieRecord) :
    fieldGe ob a b = true ∨ fieldGe ob b a = true := by
  by_cases h1 : ob = "year"
  · simp [fieldGe, h1]; exact Int.le_total _ _
  · by_cases h2 : ob = "title"
    · simp [fieldGe, h1, h2]; exact strLeB_total _ _
    · simp [fieldGe, h1, h2]; exact le_total _ _

theorem fieldGe_trans (ob : String) (a b c : MovieRecord) :
    fieldGe ob a b = true → fieldGe ob b c = true → fieldGe ob a c = true := by
  by_cases h1 : ob = "year"
  · simp [fieldGe, h1]; omega
  · by_cases h2 : ob = "title"
    · simp [fieldGe, h1, h2]; exact fun u v => strLeB_trans _ _ _ v u
    · simp [fieldGe, h1, h2]; exact fun u v => le_trans v u

theorem sorted_orderByDesc (ob : String) (rows : List MovieRecord) :
    List.Pairwise (fun a b => fieldGe ob a b = true) (orderByDesc ob rows) := by
  haveI : IsTotal MovieRecord (fun a b => fieldGe ob a b = true) := ⟨fieldGe_total ob⟩
  haveI : IsTrans MovieRecord (fun a b => fieldGe ob a b = true) :=
    ⟨fun a b c => fieldGe_trans ob a b c⟩
  exact List.sorted_insertionSort _ _

theorem mem_orderByDesc {a : MovieRecord} {ob : String} {rows : List MovieRecord} :
    a ∈ orderByDesc ob rows ↔ a ∈ rows :=
  (List.perm_insertionSort _ _).mem_iff

theorem head?_mem {α : Type} {l : List α} {a : α} (h : l.head? = some a) : a ∈ l := by
  cases l with
  | nil => simp at h
  | cons x xs => simp at h; simp [h]

theorem mem_sqlLimit {r : MovieRecord} {limit : Int} {rows : List MovieRecord}
    (h : r ∈ sqlLimit limit rows) : r ∈ rows := by
  unfold sqlLimit at h
  split at h
  · exact h
  · exact List.take_subset _ _ h

theorem sqlLimit_length {limit : Int} (rows : List MovieRecord) (h : 0 ≤ limit) :
    ((sqlLimit limit rows).length : Int) ≤ limit := by
  unfold sqlLimit
  rw [if_neg (not_lt.mpr h)]
  calc ((rows.take limit.toNat).length : Int)
      ≤ (limit.toNat : Int) := by
        exact_mod_cast Nat.le_trans (by rw [List.length_take]; exact Nat.min_le_left _ _) (Nat.le_refl _)
    _ = limit := Int.toNat_of_nonneg h

theorem mem_ratingNotNull {r : MovieRecord} {db : List MovieRecord}
    (h : r ∈ ratingNotNull db) : r ∈ db ∧ r.rating.isSome = true := by
  simpa [ratingNotNull] using (List.mem_filter.mp h)

theorem mem_genreClause {r : MovieRecord} {g : Option String} {db : List MovieRecord}
    (h : r ∈ genreClause g db) :
    r ∈ db ∧ ∀ s, g = some s → s ≠ "" → genreLikeB r s = true := by
  cases g with
  | none => exact ⟨h, by simp⟩
  | some s =>
    by_cases hs : s = ""
    · subst hs
      simp [genreClause] at h
      exact ⟨h, by simp⟩
    · simp [genreClause, hs] at h
      exact ⟨h.1, fun t ht _ => by cases ht; exact h.2⟩

theorem mem_yearClause {r : MovieRecord} {y : Option Int} {db : List MovieRecord}
    (h : r ∈ yearClause y db) :
    r ∈ db ∧ ∀ n, y = some n → n ≠ 0 → r.year = n := by
  cases y with
  | none => exact ⟨h, by simp⟩
  | some n =>
    by_cases hn : n = 0
    · subst hn
      simp [yearClause] at h
      exact ⟨h, by simp⟩
    · simp [yearClause, hn] at h
      exact ⟨h.1, fun m hm _ => by cases hm; exact h.2⟩

theorem mem_topQuery {r : MovieRecord} {limit : Int} {ob : String}
    {g : Option String} {y : Option Int} {db : List MovieRecord}
    (h : r ∈ topQuery limit ob g y db) :
    r ∈ db ∧ r.rating.isSome = true
      ∧ (∀ s, g = some s → s ≠ "" → genreLikeB r s = true)
      ∧ (∀ n, y = some n → n ≠ 0 → r.year = n) := by
  have h1 := mem_orderByDesc.mp (mem_sqlLimit h)
  have h2 := mem_yearClause h1
  have h3 := mem_genreClause h2.1
  have h4 := mem_ratingNotNull h3.1
  exact ⟨h4.1, h4.2, h3.2, h2.2⟩

theorem isPrefixChars_self_append : ∀ (p rest : List Char),
    isPrefixChars p (p ++ rest) = true
  | [], _ => rfl
  | c :: cs, rest => by
    simp [isPrefixChars, isPrefixChars_self_append cs rest]

theorem hasSubChars_nil : ∀ l : List Char, hasSubChars [] l = true
  | [] => rfl
  | c :: cs => by simp [hasSubChars, isPrefixChars]

theorem hasSubChars_append : ∀ (pre pat post : List Char),
    hasSubChars pat (pre ++ (pat ++ post)) = true
  | [], pat, post => by
    cases pat with
    | nil => simpa using hasSubChars_nil post
    | cons q qs =>
      simp only [List.nil_append]
      show (isPrefixChars (q :: qs) ((q :: qs) ++ post)
              || hasSubChars (q :: qs) (qs ++ post)) = true
      rw [isPrefixChars_self_append (q :: qs) post, Bool.true_or]
  | c :: pre, pat, post => by
    simp [hasSubChars, hasSubChars_append pre pat post]

theorem strContains_append (x p y : String) : strContains (x ++ (p ++ y)) p = true := by
  have hx : (x ++ (p ++ y)).toList = x.toList ++ (p.toList ++ y.toList) := by
    show (x ++ (p ++ y)).data = x.data ++ (p.data ++ y.data)
    simp [String.data_append]
  rw [strContains, hx]
  exact hasSubChars_append _ _ _

theorem strRepeat_length (s : String) : ∀ n : Nat, (strRepeat s n).length = n * s.length
  | 0 => by simp [strRepeat]
  | n + 1 => by
    simp [strRepeat, String.length_append, strRepeat_length s n, Nat.succ_mul, Nat.add_comm]

theorem pyInt_eq_floor (q : ℚ) (h : 0 ≤ q) : pyInt q = ⌊q⌋ := by
  rw [pyInt, Rat.floor_def]
  exact Int.tdiv_eq_ediv (by exact_mod_cast Rat.num_nonneg.mpr h) (by positivity)

/-! ## Concrete catalog rows used by witnesses and counterexamples -/

/-- A rated action movie (rating 9.3, short overview, poster present). -/
def demoA : MovieRecord :=
  ⟨1, some "http://a", "Alpha", 1999, some "Action, Drama", some (mkRat 93 10),
   some "Great."⟩

/-- A second rated action movie (rating 8, no overview). -/
def demoB : MovieRecord :=
  ⟨2, none, "Beta", 2005, some "Action", some (mkRat 8 1), none⟩

/-- A row whose rating is NULL (reachable through title search only). -/
def unratedMovie : MovieRecord := ⟨3, none, "Unrated", 2001, none, none, none⟩

/-- The row used by the C1 counterexample: non-null rating, genre `AB`
(two plain characters), year 1999. -/
def cexMovie : MovieRecord := ⟨4, none, "Gamma", 1999, some "AB", some (mkRat 8 1), none⟩

/-- Whether the row's stored genre contains `s` as a substring up to
ASCII case (the reading of `genre LIKE '%s%'` asserted by the spec); a
NULL genre contains nothing. -/
def genreContainsCI (r : MovieRecord) (s : String) : Bool :=
  match r.genre with
  | none => false
  | some t => strContainsCI t s

/-! ## Claims -/

/-- C7: for every `order_by` outside `rating`, `year`, `title`,
`get_top_movies` behaves exactly as if `order_by` were `rating` (same
results for the same remaining arguments); being a total function of its
arguments, it raises no error. -/
theorem C7_invalid_order_by_falls_back (store : Store) (limit : Int) (ob : String)
    (g : Option String) (y : Option Int)
    (h : ¬(ob = "rating" ∨ ob = "year" ∨ ob = "title")) :
    get_top_movies store limit ob g y = get_top_movies store limit "rating" g y := by
  have h2 : normOrderBy ob = "rating" := by rw [normOrderBy, if_neg h]
  have h3 : normOrderBy "rating" = "rating" := by rw [normOrderBy, if_pos (Or.inl rfl)]
  have hq : topQuery limit ob g y = topQuery limit "rating" g y := by
    funext db
    rw [topQuery, topQuery, h2, h3]
  rw [get_top_movies, get_top_movies, hq]

/-- C7 witness: the invalid column name `popularity` gives the same
output as `rating` on a concrete catalog. -/
theorem C7_witness :
    ¬("popularity" = "rating" ∨ "popularity" = "year" ∨ "popularity" = "title")
    ∧ get_top_movies (Except.ok [demoA, demoB]) 10 "popularity" none none
        = get_top_movies (Except.ok [demoA, demoB]) 10 "rating" none none :=
  ⟨by decide,
   C7_invalid_order_by_falls_back (Except.ok [demoA, demoB]) 10 "popularity" none none
     (by decide)⟩

/-- C9: over a catalog of exactly one record, `get_random_movie` returns
that record for every random ordering SQLite can produce (any
permutation of the table); over the empty catalog it returns `None`. -/
theorem C9_random_singleton_and_empty (m : MovieRecord)
    (shuffle : List MovieRecord → List MovieRecord)
    (h1 : (shuffle [m]).Perm [m]) (h0 : (shuffle []).Perm []) :
    (get_random_movie (Except.ok [m]) shuffle).1 = some m
      ∧ (get_random_movie (Except.ok []) shuffle).1 = none := by
  constructor
  · have hs : shuffle [m] = [m] := List.perm_singleton.mp h1
    simp [get_random_movie, queryOn, execute_query, hs]
  · have hs : shuffle [] = [] := List.perm_nil.mp h0
    simp [get_random_movie, queryOn, execute_query, hs]

/-- C9 witness: instantiated with the identity ordering. -/
theorem C9_witness :
    (get_random_movie (Except.ok [demoA]) id).1 = some demoA
      ∧ (get_random_movie (Except.ok []) id).1 = none :=
  C9_random_singleton_and_empty demoA id (List.Perm.refl _) (List.Perm.refl _)

/-- C10: every record returned by `get_top_movies` and by the
classic-movies query has a non-null rating (both queries filter on
`rating IS NOT NULL`), so the star computation `int(rating)` in the
ranked-list renderers always receives a non-null numeric value; no such
guarantee holds for the title search, which can return a NULL-rated row
(and computes no stars). -/
theorem C10_ranked_rows_rated :
    (∀ (db : List MovieRecord) (limit : Int) (ob : String) (g : Option String)
        (y : Option Int) (r : MovieRecord),
        r ∈ (get_top_movies (Except.ok db) limit ob g y).1 → r.rating.isSome = true)
    ∧ (∀ (db : List MovieRecord) (r : MovieRecord),
        r ∈ classicQuery db → r.rating.isSome = true)
    ∧ (search_movie_by_title (Except.ok [unratedMovie]) "unrated").1 = some unratedMovie
    ∧ unratedMovie.rating = none := by
  refine ⟨?_, ?_, by decide, rfl⟩
  · intro db limit ob g y r hr
    exact (mem_topQuery hr).2.1
  · intro db r hr
    have h1 := mem_orderByDesc.mp (List.take_subset _ _ hr)
    have h2 := List.mem_filter.mp h1
    have h3 : r.year < 2000 ∧ r.rating.isSome = true := by simpa using h2.2
    exact h3.2

/-- C10 witness: a concrete membership instance. -/
theorem C10_witness :
    demoA ∈ (get_top_movies (Except.ok [demoA]) 10 "rating" none none).1
    ∧ demoA.rating.isSome = true :=
  ⟨by decide, C10_ranked_rows_rated.1 [demoA] 10 "rating" none none demoA (by decide)⟩

/-- C8: the number of stars rendered for a (non-negative) rating equals
`floor(rating)` — `int(rating)` truncates, and truncation coincides with
the floor on the 0..10 rating range. -/
theorem C8_star_count (q : ℚ) (h : 0 ≤ q) :
    ((starsFor (some q)).length : Int) = ⌊q⌋ := by
  have hone : ("⭐" : String).length = 1 := by decide
  have hl : (starsFor (some q)).length = (pyInt q).toNat := by
    simp [starsFor, pyStrMul, strRepeat_length, hone]
  rw [hl, pyInt_eq_floor q h]
  exact Int.toNat_of_nonneg (Int.floor_nonneg.mpr h)

/-- C8 witness: a rating of 7.9 yields exactly 7 stars. -/
theorem C8_witness :
    0 ≤ mkRat 79 10
    ∧ ((starsFor (some (mkRat 79 10))).length : Int) = ⌊mkRat 79 10⌋
    ∧ ⌊mkRat 79 10⌋ = 7 :=
  ⟨by decide, C8_star_count (mkRat 79 10) (by decide), by rw [Rat.floor_def]; decide⟩

/-- C4: `search_movie_by_title` gives the same result on titles that are
equal up to (ASCII) letter case; it returns at most one record, and a
returned record's stored title is a case-insensitive exact match of the
query. -/
theorem C4_title_search_case_insensitive :
    (∀ (store : Store) (t1 t2 : String), lowerStr t1 = lowerStr t2 →
        search_movie_by_title store t1 = search_movie_by_title store t2)
    ∧ (∀ (store : Store) (t : String) (r : MovieRecord),
        (search_movie_by_title store t).1 = some r → lowerStr r.title = lowerStr t)
    ∧ (∀ (store : Store) (t : String),
        ((search_movie_by_title store t).1).toList.length ≤ 1) := by
  refine ⟨?_, ?_, ?_⟩
  · intro store t1 t2 h
    have hq : titleQuery t1 = titleQuery t2 := by
      funext db
      rw [titleQuery, titleQuery, h]
    simp only [search_movie_by_title]
    rw [hq]
  · intro store t r h
    cases store with
    | error e => simp [search_movie_by_title, execute_query, queryOn] at h
    | ok db =>
      have hm : r ∈ titleQuery t db := by
        have : ((titleQuery t db).head?) = some r := h
        exact head?_mem this
      have := (List.mem_filter.mp hm).2
      simpa using this
  · intro store t
    cases hh : (search_movie_by_title store t).1 <;> simp

/-- C4 witness: the two casings of a stored title give identical
results. -/
theorem C4_witness :
    lowerStr "ALPHA" = lowerStr "alpha"
    ∧ search_movie_by_title (Except.ok [demoA]) "ALPHA"
        = search_movie_by_title (Except.ok [demoA]) "alpha" :=
  ⟨by decide,
   C4_title_search_case_insensitive.1 (Except.ok [demoA]) "ALPHA" "alpha" (by decide)⟩

/-- C1 counterexample: the claim as stated fails on a valid `orderBy`.
With catalog `[cexMovie]` (year 1999, genre `AB`, rating non-null) and
the request `limit = -1`, `orderBy = rating`, `genreFilter = "_"`,
`yearFilter = 0`, the query returns the row — SQLite treats a negative
`LIMIT` as unbounded, the `LIKE` wildcard `_` matches without being a
substring, and Python `if year:` silently drops the filter for `0` — so
the size bound, the genre-substring property and the year-equality
property are all violated at once. -/
theorem C1_counterexample :
    ¬ ((((get_top_movies (Except.ok [cexMovie]) (-1) "rating" (some "_") (some 0)).1).length : Int)
          ≤ -1
       ∧ (∀ r ∈ (get_top_movies (Except.ok [cexMovie]) (-1) "rating" (some "_") (some 0)).1,
            genreContainsCI r "_" = true)
       ∧ (∀ r ∈ (get_top_movies (Except.ok [cexMovie]) (-1) "rating" (some "_") (some 0)).1,
            r.year = 0)) := by decide

/-- C1 (amended): for every `TopRanked` request with a valid `orderBy`,
a non-negative limit, a genre filter that (when present) is non-empty,
and a year filter that (when present) is non-zero, the result is sorted
descending in the requested field, has size at most `limit`, and every
returned record has a non-null rating, satisfies `genre LIKE '%g%'`
(which is substring containment whenever the filter is free of the
wildcards `%` and `_`), and has exactly the requested year.  The
qualifications are forced by the counterexample: negative limits are
unbounded in SQLite, empty/zero filters are falsy in Python and skip the
clause, and `LIKE` metacharacters match beyond substrings. -/
theorem C1_top_ranked_contract (db : List MovieRecord) (limit : Int) (ob : String)
    (g : Option String) (y : Option Int)
    (hob : ob = "rating" ∨ ob = "year" ∨ ob = "title") (hlim : 0 ≤ limit) :
    List.Pairwise (fun a b => fieldGe ob a b = true)
        ((get_top_movies (Except.ok db) limit ob g y).1)
    ∧ (((get_top_movies (Except.ok db) limit ob g y).1).length : Int) ≤ limit
    ∧ (∀ r ∈ (get_top_movies (Except.ok db) limit ob g y).1,
        r.rating.isSome = true
        ∧ (∀ s, g = some s → s ≠ "" → genreLikeB r s = true)
        ∧ (∀ n, y = some n → n ≠ 0 → r.year = n)) := by
  have hn : normOrderBy ob = ob := by rw [normOrderBy, if_pos hob]
  have hres : (get_top_movies (Except.ok db) limit ob g y).1 = topQuery limit ob g y db := rfl
  refine ⟨?_, ?_, ?_⟩
  · rw [hres, topQuery, hn]
    have hs := sorted_orderByDesc ob (yearClause y (genreClause g (ratingNotNull db)))
    rw [sqlLimit]
    split
    · exact hs
    · exact List.Pairwise.sublist (List.take_sublist _ _) hs
  · rw [hres, topQuery]
    exact sqlLimit_length _ hlim
  · intro r hr
    rw [hres] at hr
    have h := mem_topQuery hr
    exact ⟨h.2.1, h.2.2.1, h.2.2.2⟩

/-- C1 witness: the amended contract instantiated on a concrete catalog
with a genre filter. -/
theorem C1_witness :
    List.Pairwise (fun a b => fieldGe "rating" a b = true)
        ((get_top_movies (Except.ok [demoB, demoA]) 10 "rating" (some "Action") none).1)
    ∧ (((get_top_movies (Except.ok [demoB, demoA]) 10 "rating" (some "Action") none).1).length : Int)
        ≤ 10
    ∧ (∀ r ∈ (get_top_movies (Except.ok [demoB, demoA]) 10 "rating" (some "Action") none).1,
        r.rating.isSome = true
        ∧ (∀ s, (some "Action" : Option String) = some s → s ≠ "" → genreLikeB r s = true)
        ∧ (∀ n, (none : Option Int) = some n → n ≠ 0 → r.year = n)) :=
  C1_top_ranked_contract [demoB, demoA] 10 "rating" (some "Action") none
    (Or.inl rfl) (by decide)

/-- C2 counterexample: the classic-movies query path does not satisfy
the never-throwing contract.  It runs its SQL directly instead of going
through `execute_query`, so with an unreachable store it propagates the
`sqlite3.Error` (modelled as the `Except.error` outcome) rather than
returning an empty row list. -/
theorem C2_counterexample :
    classicFetch (Except.error "disk I/O error") = Except.error "disk I/O error"
    ∧ classicFetch (Except.error "disk I/O error") ≠ Except.ok [] := by
  refine ⟨rfl, ?_⟩
  intro h
  simp [classicFetch, queryOn] at h

/-- C2 (amended): the three `DatabaseManager` operations never throw —
a not-found outcome is the empty list (`None` for the single-record
operations), and an unreachable or malformed store yields the empty
result plus a `Database error:` log line.  The classic-movies query
path, however, bypasses `execute_query` and propagates the store
exception to its caller instead of returning an empty result. -/
theorem C2_query_service_errors :
    (∀ (e : String) (limit : Int) (ob : String) (g : Option String) (y : Option Int),
        get_top_movies (Except.error e) limit ob g y = ([], ["Database error: " ++ e]))
    ∧ (∀ (e t : String),
        search_movie_by_title (Except.error e) t = (none, ["Database error: " ++ e]))
    ∧ (∀ (e : String) (shuffle : List MovieRecord → List MovieRecord),
        get_random_movie (Except.error e) shuffle = (none, ["Database error: " ++ e]))
    ∧ (∀ (db : List MovieRecord) (t : String),
        (∀ r ∈ db, lowerStr r.title ≠ lowerStr t) →
        search_movie_by_title (Except.ok db) t = (none, []))
    ∧ (∀ e : String, classicFetch (Except.error e) = Except.error e) := by
  refine ⟨fun e limit ob g y => rfl, fun e t => rfl, fun e sh => rfl, ?_, fun e => rfl⟩
  intro db t h
  have hnil : titleQuery t db = [] := by
    rw [titleQuery, List.filter_eq_nil_iff]
    intro r hr
    simp [h r hr]
  simp [search_movie_by_title, execute_query, queryOn, hnil]

/-- C2 witness: a failing store degrades to the empty result with a log
line, and a miss is `None` without an error. -/
theorem C2_witness :
    get_top_movies (Except.error "disk full") 10 "rating" none none
        = ([], ["Database error: disk full"])
    ∧ search_movie_by_title (Except.ok [demoA]) "Nonexistent" = (none, []) :=
  ⟨C2_query_service_errors.1 "disk full" 10 "rating" none none,
   C2_query_service_errors.2.2.2.1 [demoA] "Nonexistent" (by decide)⟩

/-- C3 counterexample: a store failure on the classic-movies callback
reaches the handler's generic `except`, and the alert shown to the user
is `"❌ Error: " + str(e)` — it contains the raw internal error text,
contradicting the claim that such text is never sent to the user. -/
theorem C3_counterexample :
    (handle_year_callback (Except.error "disk I/O error") "top_year_classic" 1 2 3).1
      = [BotAction.answerCallback 3 (some "❌ Error: disk I/O error")]
    ∧ strContains "❌ Error: disk I/O error" "disk I/O error" = true :=
  ⟨rfl, by decide⟩

/-- C3 (amended): on a query failure the genre callback, the
specific-year callback, the text search and the random command all show
a fixed nothing-found message (store errors surface there as empty
results) and the query layer logs `Database error: {e}`; but the
classic-movies path sends the user `"❌ Error: " + str(e)` containing
the raw exception text, logging `Error in year callback: {e}`. -/
theorem C3_error_reporting :
    (∀ (e data : String) (c m k : Int),
        handle_genre_callback (Except.error e) data c m k
          = ([BotAction.answerCallback k
                (some ("❌ No movies found in genre \x27" ++ genreOf data ++ "\x27"))],
             ["Database error: " ++ e]))
    ∧ (∀ (e data : String) (c m k yr : Int),
        data ≠ "top_year_classic" → pyIntOfStr (yearTextOf data) = some yr →
        handle_year_callback (Except.error e) data c m k
          = ([BotAction.answerCallback k
                (some ("❌ No movies found for year " ++ intText yr))],
             ["Database error: " ++ e]))
    ∧ (∀ (e : String) (c m k : Int),
        handle_year_callback (Except.error e) "top_year_classic" c m k
          = ([BotAction.answerCallback k (some ("❌ Error: " ++ e))],
             ["Error in year callback: " ++ e]))
    ∧ (∀ (e t : String) (c : Int),
        handle_text_search (Except.error e) t c
          = ([BotAction.sendMessage c
               ("❌ Sorry, I couldn\x27t find \x27" ++ t ++ "\x27 in the database.\n\n"
                ++ "Try:\n• Checking the spelling\n• Using /random for a random movie\n"
                ++ "• Browsing by /top_movies_genre")],
             ["Database error: " ++ e]))
    ∧ (∀ (e : String) (sh : List MovieRecord → List MovieRecord) (c : Int),
        handle_random (Except.error e) sh c
          = ([BotAction.sendMessage c "❌ No movies found in database"],
             ["Database error: " ++ e])) := by
  refine ⟨fun e data c m k => rfl, ?_, fun e c m k => rfl, fun e t c => rfl,
          fun e sh c => rfl⟩
  intro e data c m k yr hne hparse
  rw [handle_year_callback, if_neg hne, hparse]
  rfl

/-- C3 witness: the specific-year path on a failing store shows the
fixed nothing-found alert. -/
theorem C3_witness :
    handle_year_callback (Except.error "disk full") "top_year_2020" 1 2 3
      = ([BotAction.answerCallback 3 (some "❌ No movies found for year 2020")],
         ["Database error: disk full"]) :=
  (C3_error_reporting.2.1 "disk full" "top_year_2020" 1 2 3 2020
      (by decide) (by decide)).trans (by decide)

theorem send_movie_info_no_edit (c : Int) (m : MovieRecord) :
    ∀ a ∈ send_movie_info c m, isEditAction a = false := by
  intro a ha
  rw [send_movie_info] at ha
  rcases List.mem_append.mp ha with h | h
  · cases him : m.img with
    | none => rw [him] at h; simp at h
    | some u =>
      rw [him] at h
      by_cases hu : u = ""
      · simp [hu] at h
      · simp [hu] at h
        simp [h, isEditAction]
  · simp at h
    simp [h, isEditAction]

/-- C5: the genre- and year-selected callback handlers never send a new
message — whenever they render a ranked list they do it by editing the
originating message (matching chat id and message id) — while every
command-triggered handler (`/top_movies`, `/random`, `/start`, `/help`,
the genre and year menus, and the free-text search) never edits a
message, and `/top_movies` renders its list through a fresh send.  An
empty query result makes a callback handler answer with an alert only,
rendering nothing. -/
theorem C5_callback_edits_command_sends :
    (∀ (store : Store) (data : String) (c m k : Int),
        (∀ a ∈ (handle_genre_callback store data c m k).1, isSendAction a = false)
        ∧ ((get_top_movies store 10 "rating" (some (genreOf data)) none).1 ≠ [] →
            BotAction.editMessageText c m
                (renderGenreList (genreOf data)
                  ((get_top_movies store 10 "rating" (some (genreOf data)) none).1))
              ∈ (handle_genre_callback store data c m k).1))
    ∧ (∀ (store : Store) (data : String) (c m k : Int),
        (∀ a ∈ (handle_year_callback store data c m k).1, isSendAction a = false)
        ∧ (∀ movies : List MovieRecord,
            data = "top_year_classic" → classicFetch store = Except.ok movies →
            movies ≠ [] →
            BotAction.editMessageText c m (renderClassicList movies)
              ∈ (handle_year_callback store data c m k).1)
        ∧ (∀ yr : Int,
            data ≠ "top_year_classic" → pyIntOfStr (yearTextOf data) = some yr →
            (get_top_movies store 10 "rating" none (some yr)).1 ≠ [] →
            BotAction.editMessageText c m
                (renderYearList yr ((get_top_movies store 10 "rating" none (some yr)).1))
              ∈ (handle_year_callback store data c m k).1))
    ∧ (∀ (store : Store) (c : Int),
        (∀ a ∈ (handle_top_movies store c).1, isEditAction a = false)
        ∧ ((get_top_movies store 10 "rating" none none).1 ≠ [] →
            BotAction.sendMessage c
                (renderTopList ((get_top_movies store 10 "rating" none none).1))
              ∈ (handle_top_movies store c).1))
    ∧ (∀ (store : Store) (sh : List MovieRecord → List MovieRecord) (c : Int),
        ∀ a ∈ (handle_random store sh c).1, isEditAction a = false)
    ∧ (∀ (store : Store) (t : String) (c : Int),
        ∀ a ∈ (handle_text_search store t c).1, isEditAction a = false)
    ∧ (∀ c : Int, ∀ a ∈ (handle_start c).1, isEditAction a = false)
    ∧ (∀ c : Int, ∀ a ∈ (handle_help c).1, isEditAction a = false)
    ∧ (∀ c : Int, ∀ a ∈ (handle_top_movies_by_genre c).1, isEditAction a = false)
    ∧ (∀ c : Int, ∀ a ∈ (handle_top_movies_by_year c).1, isEditAction a = false) := by
  refine ⟨?_, ?_, ?_, ?_, ?_, ?_, ?_, ?_, ?_⟩
  · intro store data c m k
    constructor
    · intro a ha
      by_cases h : (get_top_movies store 10 "rating" (some (genreOf data)) none).1 = []
      · simp [handle_genre_callback, h] at ha
        simp [ha, isSendAction]
      · simp [handle_genre_callback, h] at ha
        rcases ha with ha | ha <;> simp [ha, isSendAction]
    · intro h
      simp [handle_genre_callback, h]
  · intro store data c m k
    refine ⟨?_, ?_, ?_⟩
    · intro a ha
      by_cases hd : data = "top_year_classic"
      · subst hd
        rw [handle_year_callback, if_pos rfl] at ha
        cases hc : classicFetch store with
        | error e => rw [hc] at ha; simp at ha; simp [ha, isSendAction]
        | ok movies =>
          rw [hc] at ha
          by_cases hm : movies = []
          · simp [hm] at ha; simp [ha, isSendAction]
          · simp [hm] at ha
            rcases ha with ha | ha <;> simp [ha, isSendAction]
      · rw [handle_year_callback, if_neg hd] at ha
        cases hp : pyIntOfStr (yearTextOf data) with
        | none => rw [hp] at ha; simp at ha; simp [ha, isSendAction]
        | some yr =>
          rw [hp] at ha
          by_cases hq : (get_top_movies store 10 "rating" none (some yr)).1 = []
          · simp [hq] at ha; simp [ha, isSendAction]
          · simp [hq] at ha
            rcases ha with ha | ha <;> simp [ha, isSendAction]
    · intro movies hd hc hm
      subst hd
      rw [handle_year_callback, if_pos rfl, hc]
      simp [hm]
    · intro yr hd hp hq
      rw [handle_year_callback, if_neg hd, hp]
      simp [hq]
  · intro store c
    constructor
    · intro a ha
      by_cases h : (get_top_movies store 10 "rating" none none).1 = []
      · simp [handle_top_movies, h] at ha
        simp [ha, isEditAction]
      · simp [handle_top_movies, h] at ha
        simp [ha, isEditAction]
    · intro h
      simp [handle_top_movies, h]
  · intro store sh c a ha
    cases hq : (get_random_movie store sh).1 with
    | some mv =>
      rw [handle_random] at ha
      rw [hq] at ha
      exact send_movie_info_no_edit c mv a ha
    | none =>
      rw [handle_random] at ha
      rw [hq] at ha
      simp at ha
      simp [ha, isEditAction]
  · intro store t c a ha
    cases hq : (search_movie_by_title store t).1 with
    | some mv =>
      rw [handle_text_search] at ha
      rw [hq] at ha
      simp at ha
      rcases ha with ha | ha
      · simp [ha, isEditAction]
      · exact send_movie_info_no_edit c mv a ha
    | none =>
      rw [handle_text_search] at ha
      rw [hq] at ha
      simp at ha
      simp [ha, isEditAction]
  · intro c a ha
    simp [handle_start] at ha
    simp [ha, isEditAction]
  · intro c a ha
    simp [handle_help] at ha
    simp [ha, isEditAction]
  · intro c a ha
    simp [handle_top_movies_by_genre] at ha
    simp [ha, isEditAction]
  · intro c a ha
    simp [handle_top_movies_by_year] at ha
    simp [ha, isEditAction]

/-- C5 witness: on a concrete catalog the genre callback edits message 2
of chat 1 in place, and `/top_movies` sends a new message. -/
theorem C5_witness :
    BotAction.editMessageText 1 2
        (renderGenreList (genreOf "top_genre_Action")
          ((get_top_movies (Except.ok [demoA, demoB]) 10 "rating"
              (some (genreOf "top_genre_Action")) none).1))
      ∈ (handle_genre_callback (Except.ok [demoA, demoB]) "top_genre_Action" 1 2 3).1
    ∧ BotAction.sendMessage 1
        (renderTopList ((get_top_movies (Except.ok [demoA, demoB]) 10 "rating" none none).1))
      ∈ (handle_top_movies (Except.ok [demoA, demoB]) 1).1 :=
  ⟨(C5_callback_edits_command_sends.1 (Except.ok [demoA, demoB]) "top_genre_Action" 1 2 3).2
     (by decide),
   (C5_callback_edits_command_sends.2.2.1 (Except.ok [demoA, demoB]) 1).2 (by decide)⟩

set_option maxRecDepth 8192

/-- A 150-character overview used by the C6 witness. -/
def longDesc : String := String.mk (List.replicate 150 'a')

/-- C6: the truncated description equals the first 100 characters plus
an ellipsis exactly when the overview is longer than 100 characters
(otherwise it is the overview unchanged); the unfiltered top-10 entry
contains the description whenever one is present; and the genre-, year-
and classic-filtered entries do not depend on the overview at all — the
description is omitted entirely there. -/
theorem C6_description_truncation :
    (∀ s : String, 100 < s.length → shortDesc (some s) = pyTake s 100 ++ "...")
    ∧ (∀ s : String, s.length ≤ 100 → shortDesc (some s) = s)
    ∧ (∀ (i : Nat) (m : MovieRecord), shortDesc m.overview ≠ "" →
        strContains (renderTopEntry i m) ("📝 " ++ shortDesc m.overview) = true)
    ∧ (∀ (i : Nat) (m : MovieRecord) (o : Option String),
        renderGenreEntry i ⟨m.id, m.img, m.title, m.year, m.genre, m.rating, o⟩
          = renderGenreEntry i m)
    ∧ (∀ (i : Nat) (m : MovieRecord) (o : Option String),
        renderYearEntry i ⟨m.id, m.img, m.title, m.year, m.genre, m.rating, o⟩
          = renderYearEntry i m)
    ∧ (∀ (i : Nat) (m : MovieRecord) (o : Option String),
        renderClassicEntry i ⟨m.id, m.img, m.title, m.year, m.genre, m.rating, o⟩
          = renderClassicEntry i m) := by
  refine ⟨?_, ?_, ?_, fun i m o => rfl, fun i m o => rfl, fun i m o => rfl⟩
  · intro s h
    simp [shortDesc, h]
  · intro s h
    simp [shortDesc, not_lt.mpr h]
  · intro i m h
    have heq : renderTopEntry i m
        = ("\n<b>" ++ natText i ++ ". " ++ m.title ++ "</b> (" ++ intText m.year
            ++ ")\n   ⭐ <b>Rating:</b> " ++ ratText m.rating ++ "/10 "
            ++ starsFor m.rating ++ "\n   🎭 <b>Genre:</b> "
            ++ orElseStr m.genre "Unknown" ++ "\n   ")
          ++ (("📝 " ++ shortDesc m.overview)
              ++ ("\n" ++ "   ━━━━━━━━━━━━━━━━━━━\n")) := by
      rw [renderTopEntry, if_neg h]
      apply String.ext
      simp [String.data_append]
    rw [heq]
    exact strContains_append _ _ _

/-- C6 witness: a 150-character overview is cut to 100 characters plus
an ellipsis, and the top-10 entry for `demoA` contains its (short)
description verbatim. -/
theorem C6_witness :
    (100 < longDesc.length ∧ shortDesc (some longDesc) = pyTake longDesc 100 ++ "...")
    ∧ strContains (renderTopEntry 1 demoA) ("📝 " ++ shortDesc demoA.overview) = true :=
  ⟨⟨by decide, C6_description_truncation.1 longDesc (by decide)⟩,
   C6_description_truncation.2.2.1 1 demoA (by decide)⟩
